import Mathlib

/-!
Verification of the ingress-route reconciliation of the istio-pilot charm
(`charms/istio-pilot/src/charm.py`, `handle_ingress` and the resource
handles built in `Operator.__init__`), as a shallow embedding.

The Jinja template `virtual_service.yaml.j2` referenced by `handle_ingress`
is not part of the source tree; the documents it renders are modelled from
the specification, with the concrete field shapes fixed by the expected
documents asserted in `charms/istio-pilot/tests/test_charm.py`
(`test_with_ingress_relation`, `test_with_ingress_relation_v3`).
-/

namespace IstioPilot

/-- One ingress route record, as carried in the relation data dict.
Fields mirror the keys used by `handle_ingress`: `service`, `port`,
`prefix` (here `pfx`; optional keys are `Option`s matching
`kwargs.setdefault` / `'namespace' not in kwargs` / `route.get` in the
source). -/
structure Route where
  service : String
  port : Nat
  pfx : String
  rewrite : Option String
  ns : Option String
  per_unit_routes : Bool
deriving DecidableEq, Repr

/-- One entry of the filtered `routes` dict of `handle_ingress`: the key
`(rel, app)` (relation id and remote application name), the negotiated
schema version `ingress.versions[app.name]`, the relation's unit names
`rel.units` (in the order the framework exposes them), and the route
payload. -/
structure Entry where
  relId : Nat
  appName : String
  version : String
  units : List String
  route : Route
deriving DecidableEq, Repr

/-- Effective namespace: `kwargs['namespace'] = self.model.name` when the
route carries none (charm.py, `get_kwargs`). -/
def effNs (e : Entry) (selfNs : String) : String :=
  e.route.ns.getD selfNs

/-- Effective rewrite: `kwargs.setdefault("rewrite", prefix)` (charm.py,
`get_kwargs`). -/
def effRewrite (e : Entry) : String :=
  e.route.rewrite.getD e.route.pfx

/-- Python `s.split(c)` on the character list of a string (always
returns at least one piece). -/
def splitOnChar (c : Char) : List Char → List (List Char)
  | [] => [[]]
  | x :: xs =>
    match splitOnChar c xs, decEq x c with
    | r, isTrue _ => [] :: r
    | [], isFalse _ => [[x]]
    | y :: ys, isFalse _ => (x :: y) :: ys

/-- `unit.name.split("/")[-1]`: the numeric tail of a unit identifier
(charm.py, response loop; same ordinal the template substitutes). -/
def unitIdx (u : String) : String :=
  String.mk ((splitOnChar '/' u.data).getLastD [])

/-- Python `prefix.endswith("/")`: the last character is a slash. -/
def endsWithSlash (p : String) : Bool :=
  p.data.getLast? == some '/'

/-- Python `prefix[:-1]`: the string with its final character removed. -/
def dropLastChar (p : String) : String :=
  String.mk p.data.dropLast

/-- The three-case unit path of `get_kwargs` (charm.py lines 227-232),
with the unit ordinal already substituted for the `{}` placeholder.
Modelled from the spec: the missing template `virtual_service.yaml.j2`
substitutes each unit's ordinal into the `unit_prefix` template that
`get_kwargs` computes; the three cases here are the source's three
branches with the ordinal spliced in place of the placeholder. -/
def unitPath (p i : String) : String :=
  if p = "/" then "/unit-" ++ i ++ "/"
  else if endsWithSlash p then dropLastChar p ++ "-unit-" ++ i ++ "/"
  else p ++ "-unit-" ++ i

/-- The subset name attached to one unit's routes and DestinationRule
subset. Modelled from the spec, with the concrete value fixed by the
expected documents in the tests: for service `service-name` and units
`app/0`, `app/1`, the tests expect subsets `app-0`, `app-1` — the unit
name with the `/` separator replaced by `-`, which is the pod name of
that unit's statefulset pod. -/
def unitSubset (u : String) : String :=
  String.mk (u.data.map fun c => if c = '/' then '-' else c)

/-- Python's lexicographic (code-point) strict comparison of strings,
used as the sort key of `sorted(rel.units, key=lambda u: u.name)`. -/
def strLtB : List Char → List Char → Bool
  | [], [] => false
  | [], _ :: _ => true
  | _ :: _, [] => false
  | a :: as, b :: bs =>
    if a.toNat < b.toNat then true
    else if b.toNat < a.toNat then false
    else strLtB as bs

/-- The non-strict comparison induced by `strLtB`. -/
def strLeB (a b : String) : Bool :=
  !(strLtB b.data a.data)

/-- `kwargs["units"] = sorted(rel.units, key=lambda u: u.name)` (charm.py,
`get_kwargs`). -/
def sortedUnits (e : Entry) : List String :=
  List.insertionSort (fun a b => strLeB a b = true) e.units

/-- A destination of an HTTP route rule of a VirtualService. -/
structure Destination where
  host : String
  port : Nat
  subset : Option String
deriving DecidableEq, Repr

/-- One HTTP match/rewrite/route rule of a VirtualService. -/
structure HttpRule where
  name : String
  matchPfx : String
  rewriteUri : String
  destination : Destination
deriving DecidableEq, Repr

/-- A rendered VirtualService document (`metadata.name`, `spec.gateways`,
`spec.hosts`, `spec.http`). -/
structure VirtualService where
  name : String
  gateways : List String
  hosts : List String
  http : List HttpRule
deriving DecidableEq, Repr

/-- One subset of a DestinationRule: its name and the value of its
`statefulset.kubernetes.io/pod-name` label selector. -/
structure Subset where
  name : String
  podName : String
deriving DecidableEq, Repr

/-- A rendered DestinationRule document. -/
structure DestinationRule where
  name : String
  host : String
  subsets : List Subset
deriving DecidableEq, Repr

/-- One rendered resource document. -/
inductive Doc where
  | vs (v : VirtualService)
  | dr (d : DestinationRule)
deriving DecidableEq, Repr

/-- `<service>.<namespace>.svc.cluster.local`, the destination host used
by every rule of an application's documents. -/
def svcHost (e : Entry) (selfNs : String) : String :=
  e.route.service ++ "." ++ effNs e selfNs ++ ".svc.cluster.local"

/-- Modelled from the spec: the base HTTP rule of the missing template
`virtual_service.yaml.j2` — match on the prefix, rewrite to the effective
rewrite, destination host:port with no subset (rule name `app-route` per
the expected documents in the tests). -/
def baseRule (e : Entry) (selfNs : String) : HttpRule :=
  { name := "app-route"
    matchPfx := e.route.pfx
    rewriteUri := effRewrite e
    destination := { host := svcHost e selfNs, port := e.route.port, subset := none } }

/-- Modelled from the spec: the per-unit HTTP rule of the missing
template — match on the unit-specific path, rewrite to the effective
rewrite, destination host:port pinned to that unit's subset (rule name
`unit-<ordinal>-route` and subset names per the expected documents in
the tests). -/
def unitRule (e : Entry) (selfNs u : String) : HttpRule :=
  { name := "unit-" ++ unitIdx u ++ "-route"
    matchPfx := unitPath e.route.pfx (unitIdx u)
    rewriteUri := effRewrite e
    destination := { host := svcHost e selfNs, port := e.route.port
                     subset := some (unitSubset u) } }

/-- Modelled from the spec: the VirtualService rendered by the missing
template for one application — `metadata.name = service`,
`hosts = ["*"]`, one base rule plus one rule per sorted unit when
`per_unit_routes`; the gateway reference is namespace-qualified
(`<namespace>/<gateway>`) as fixed by the expected documents in the
tests. -/
def vsOf (e : Entry) (selfNs gw : String) : VirtualService :=
  { name := e.route.service
    gateways := [effNs e selfNs ++ "/" ++ gw]
    hosts := ["*"]
    http := baseRule e selfNs ::
      (if e.route.per_unit_routes then (sortedUnits e).map (unitRule e selfNs) else []) }

/-- Modelled from the spec: the DestinationRule rendered by the missing
template when `per_unit_routes` — one subset per sorted unit, selecting
the pod whose `statefulset.kubernetes.io/pod-name` label equals the
subset name (subset names per the expected documents in the tests). -/
def drOf (e : Entry) (selfNs : String) : DestinationRule :=
  { name := e.route.service
    host := svcHost e selfNs
    subsets := (sortedUnits e).map fun u =>
      { name := unitSubset u
        podName := unitSubset u } }

/-- The documents one route entry contributes: its VirtualService,
followed by its DestinationRule when `per_unit_routes` is set. -/
def docsOf (e : Entry) (selfNs gw : String) : List Doc :=
  Doc.vs (vsOf e selfNs gw) ::
    (if e.route.per_unit_routes then [Doc.dr (drOf e selfNs)] else [])

/-- Python `s.strip("/")`: the string with every leading and trailing
`/` removed (charm.py, `prefix = route["prefix"].strip("/")`). -/
def stripSlashes (s : String) : String :=
  String.mk (((s.data.dropWhile (· == '/')).reverse.dropWhile (· == '/')).reverse)

/-- The numeric value of a list of decimal digits, `none` when empty or
containing a non-digit (where Python `int` would raise). -/
def natOfDigits? (l : List Char) : Option Nat :=
  match l with
  | [] => none
  | _ =>
    l.foldl
      (fun acc? c =>
        acc?.bind fun acc =>
          if c.isDigit then some (acc * 10 + (c.toNat - 48)) else none)
      (some 0)

/-- `int(version[1:])`, returning `none` where Python would raise: the
numeric part of a schema version string such as `"v3"`. -/
def verNum (v : String) : Option Nat :=
  natOfDigits? (v.data.drop 1)

/-- The guard `int(ingress.versions[app.name][1:]) < 3: continue` of the
response loop, as the predicate selecting the entries that do get a
response. -/
def respondsB (e : Entry) : Bool :=
  match verNum e.version with
  | some n => decide (3 ≤ n)
  | none => false

/-- The response payload sent back to one application. -/
structure Response where
  appName : String
  url : String
  unitUrls : Option (List (String × String))
deriving DecidableEq, Repr

/-- The response body built in the response loop of `handle_ingress`:
`url = f"http://{gateway_address}/{prefix}/"` with the stripped prefix,
and, exactly when `per_unit_routes`, `unit_urls` mapping each unit name
to `f"http://{gateway_address}/{prefix}-unit-{unit_num}/"` (the loop
iterates `rel.units` in exposure order). -/
def responseOf (e : Entry) (addr : String) : Response :=
  let tp := stripSlashes e.route.pfx
  { appName := e.appName
    url := "http://" ++ addr ++ "/" ++ tp ++ "/"
    unitUrls :=
      if e.route.per_unit_routes then
        some (e.units.map fun u =>
          (u, "http://" ++ addr ++ "/" ++ tp ++ "-unit-" ++ unitIdx u ++ "/"))
      else none }

/-- The ordering key of the routes dict comprehension:
`sorted(ingress.get_data().items(), key=lambda tup: tup[0][0].id)`. -/
def entryLe (a b : Entry) : Prop :=
  a.relId ≤ b.relId

instance : DecidableRel entryLe := fun a b =>
  inferInstanceAs (Decidable (a.relId ≤ b.relId))

instance : IsTotal Entry entryLe :=
  ⟨fun a b => Nat.le_total a.relId b.relId⟩

instance : IsTrans Entry entryLe :=
  ⟨fun _ _ _ h h' => Nat.le_trans h h'⟩

/-- The strict version of `entryLe`, used to show sorting is unambiguous
when relation ids are distinct. -/
def entryLt (a b : Entry) : Prop :=
  a.relId < b.relId

instance : IsAntisymm Entry entryLt :=
  ⟨fun a _ h h' => absurd (Nat.lt_trans h h') (Nat.lt_irrefl a.relId)⟩

/-- The sort performed while building the `routes` dict of
`handle_ingress` (ascending relation id; dict insertion order then fixes
every later iteration). -/
def sortRoutes (rs : List Entry) : List Entry :=
  List.insertionSort entryLe rs

/-- The output of one reconciliation pass: the rendered documents (in
apply order) and the responses sent back (in send order). -/
structure Output where
  docs : List Doc
  responses : List Response
deriving DecidableEq, Repr

/-- The reconciliation of `handle_ingress` after the gateway-address
guard: sort the filtered routes by relation id, render each entry's
documents in that order, and send a response to each entry whose schema
version is at least 3. -/
def compute (rs : List Entry) (gw selfNs addr : String) : Output :=
  { docs := ((sortRoutes rs).map fun e => docsOf e selfNs gw).flatten
    responses :=
      ((sortRoutes rs).filter respondsB).map fun e => responseOf e addr }

/-- `del routes[(event.relation, event.app)]` (charm.py line 210): Python
`del` raises `KeyError` when the key is absent, so the result is an
`Except`. -/
def delEntry (rs : List Entry) (rid : Nat) (app : String) :
    Except String (List Entry) :=
  if rs.any (fun e => e.relId == rid && e.appName == app) then
    .ok (rs.filter fun e => !(e.relId == rid && e.appName == app))
  else
    .error "KeyError"

/-- `handle_ingress` on the filtered route set: on a relation-broken
event (`broken = some (rid, app)`) the broken entry is deleted before
computing; otherwise the routes are used as they are. -/
def handleIngress (rs : List Entry) (broken : Option (Nat × String))
    (gw selfNs addr : String) : Except String Output :=
  match broken with
  | none => .ok (compute rs gw selfNs addr)
  | some (rid, app) =>
    match delEntry rs rid app with
    | .ok rs' => .ok (compute rs' gw selfNs addr)
    | .error msg => .error msg

/-- `self.model.config['default-gateways'].split(',')[0]` (charm.py line
213): the first entry of the comma-separated configuration value. -/
def firstGateway (cfg : String) : String :=
  String.mk ((splitOnChar ',' cfg.data).headD [])

/-- A group/version/kind/plural quadruple as passed to
`create_namespaced_resource` in `Operator.__init__`. -/
structure ResourceDef where
  group : String
  version : String
  kind : String
  plural : String
deriving DecidableEq, Repr

/-- charm.py lines 44-48. -/
def envoy_filter_resource : ResourceDef :=
  { group := "networking.istio.io", version := "v1alpha3"
    kind := "EnvoyFilter", plural := "envoyfilters" }

/-- charm.py lines 50-54. -/
def virtual_service_resource : ResourceDef :=
  { group := "networking.istio.io", version := "v1alpha3"
    kind := "VirtualService", plural := "virtualservices" }

/-- charm.py lines 56-60. -/
def destination_rule_resource : ResourceDef :=
  { group := "networking.istio.io", version := "v1alpha3"
    kind := "DestinationRule", plural := "destinationrules" }

/-- charm.py lines 62-66. -/
def gateway_resource : ResourceDef :=
  { group := "networking.istio.io", version := "v1beta1"
    kind := "Gateway", plural := "gateways" }

/-- charm.py lines 68-72: the handle named `rbac_config_resource` is
built from the same group/version/kind/plural as `gateway_resource`. -/
def rbac_config_resource : ResourceDef :=
  { group := "networking.istio.io", version := "v1beta1"
    kind := "Gateway", plural := "gateways" }

/-- The resource list whose labelled objects `remove` deletes
(charm.py lines 144-146). -/
def removeDeleteResources : List ResourceDef :=
  [virtual_service_resource, destination_rule_resource, gateway_resource,
   envoy_filter_resource, rbac_config_resource]

/-- The resource list whose labelled objects `handle_ingress_auth`
deletes (charm.py line 311). -/
def ingressAuthDeleteResources : List ResourceDef :=
  [envoy_filter_resource, rbac_config_resource]

/-- The first route of `test_with_ingress_relation_v3`: service
`service-name`, two units, per-unit routes on. -/
def sampleA : Entry :=
  { relId := 0, appName := "app", version := "v3", units := ["app/0", "app/1"]
    route := { service := "service-name", port := 6666, pfx := "/app/"
               rewrite := some "/", ns := some "ns", per_unit_routes := true } }

/-- The second route of `test_with_ingress_relation_v3`: service `app2`,
per-unit routes off. -/
def sampleB : Entry :=
  { relId := 1, appName := "app2", version := "v3", units := ["app2/0", "app2/1"]
    route := { service := "app2", port := 6666, pfx := "/app2/"
               rewrite := some "/", ns := some "ns", per_unit_routes := false } }

/-- The route of `test_with_ingress_relation`: a v1 relation with a bare
`/` prefix and no namespace. -/
def sampleC : Entry :=
  { relId := 2, appName := "app", version := "v1", units := ["app/0"]
    route := { service := "service-name", port := 6666, pfx := "/"
               rewrite := none, ns := none, per_unit_routes := false } }

theorem mem_sortRoutes {e : Entry} {rs : List Entry} :
    e ∈ sortRoutes rs ↔ e ∈ rs :=
  (List.perm_insertionSort entryLe rs).mem_iff

theorem sorted_sortRoutes (rs : List Entry) :
    List.Sorted entryLe (sortRoutes rs) :=
  List.sorted_insertionSort entryLe rs

theorem sortRoutes_perm (rs : List Entry) : (sortRoutes rs).Perm rs :=
  List.perm_insertionSort entryLe rs

theorem sorted_lt_of_nodup {l : List Entry}
    (hs : List.Sorted entryLe l) (hn : (l.map Entry.relId).Nodup) :
    List.Sorted entryLt l := by
  have hne : List.Pairwise (fun a b : Entry => a.relId ≠ b.relId) l :=
    List.pairwise_map.mp hn
  exact (hs.and hne).imp fun h => Nat.lt_of_le_of_ne h.1 h.2

theorem sortRoutes_eq_of_perm {rs₁ rs₂ : List Entry}
    (hp : rs₁.Perm rs₂) (hn : (rs₁.map Entry.relId).Nodup) :
    sortRoutes rs₁ = sortRoutes rs₂ := by
  have hn₁ : ((sortRoutes rs₁).map Entry.relId).Nodup :=
    ((sortRoutes_perm rs₁).map Entry.relId).nodup_iff.mpr hn
  have hn₂ : ((sortRoutes rs₂).map Entry.relId).Nodup :=
    ((sortRoutes_perm rs₂).map Entry.relId).nodup_iff.mpr
      ((hp.map Entry.relId).nodup_iff.mp hn)
  exact List.eq_of_perm_of_sorted
    ((sortRoutes_perm rs₁).trans (hp.trans (sortRoutes_perm rs₂).symm))
    (sorted_lt_of_nodup (sorted_sortRoutes rs₁) hn₁)
    (sorted_lt_of_nodup (sorted_sortRoutes rs₂) hn₂)

theorem sortRoutes_filter (p : Entry → Bool) {rs : List Entry}
    (hn : (rs.map Entry.relId).Nodup) :
    sortRoutes (rs.filter p) = (sortRoutes rs).filter p := by
  have hnf : ((rs.filter p).map Entry.relId).Nodup :=
    List.Nodup.sublist (List.Sublist.map Entry.relId (List.filter_sublist rs))
      hn
  have hn₁ : ((sortRoutes (rs.filter p)).map Entry.relId).Nodup :=
    ((sortRoutes_perm (rs.filter p)).map Entry.relId).nodup_iff.mpr hnf
  have hns : ((sortRoutes rs).map Entry.relId).Nodup :=
    ((sortRoutes_perm rs).map Entry.relId).nodup_iff.mpr hn
  have hperm : (sortRoutes (rs.filter p)).Perm ((sortRoutes rs).filter p) :=
    (sortRoutes_perm (rs.filter p)).trans ((sortRoutes_perm rs).filter p).symm
  have hn₂ : (((sortRoutes rs).filter p).map Entry.relId).Nodup :=
    List.Nodup.sublist
      (List.Sublist.map Entry.relId (List.filter_sublist (sortRoutes rs))) hns
  exact List.eq_of_perm_of_sorted hperm
    (sorted_lt_of_nodup (sorted_sortRoutes (rs.filter p)) hn₁)
    (sorted_lt_of_nodup
      (List.Pairwise.filter p (sorted_sortRoutes rs)) hn₂)

/-- Claim C1: for every route, the unit-route path is computed from the
route's prefix in exactly three cases — `/` gives `/unit-<i>/`, a prefix
ending in `/` gives the prefix minus its final slash followed by
`-unit-<i>/`, and any other prefix gives the prefix followed by
`-unit-<i>` — where `<i>` is the numeric tail of the unit's
identifier. -/
theorem unit_route_path_cases (e : Entry) (selfNs u : String) :
    (unitRule e selfNs u).matchPfx = unitPath e.route.pfx (unitIdx u)
    ∧ (e.route.pfx = "/" →
        unitPath e.route.pfx (unitIdx u) = "/unit-" ++ unitIdx u ++ "/")
    ∧ (e.route.pfx ≠ "/" → endsWithSlash e.route.pfx = true →
        unitPath e.route.pfx (unitIdx u)
          = dropLastChar e.route.pfx ++ "-unit-" ++ unitIdx u ++ "/")
    ∧ (e.route.pfx ≠ "/" → endsWithSlash e.route.pfx = false →
        unitPath e.route.pfx (unitIdx u)
          = e.route.pfx ++ "-unit-" ++ unitIdx u)
    ∧ unitIdx u = String.mk ((splitOnChar '/' u.data).getLastD []) := by
  refine ⟨rfl, fun h => ?_, fun h h' => ?_, fun h h' => ?_, rfl⟩
  · simp [unitPath, h]
  · simp [unitPath, h, h']
  · simp [unitPath, h, h']

/-- Witness for C1: the middle case at the prefix `/app/` of the tests,
unit `app/0`. -/
theorem unit_route_path_cases_witness :
    unitPath sampleA.route.pfx (unitIdx "app/0")
      = dropLastChar sampleA.route.pfx ++ "-unit-" ++ unitIdx "app/0" ++ "/" :=
  (unit_route_path_cases sampleA "ns" "app/0").2.2.1 (by decide) (by decide)

/-- Counterexample for C2: with service `service-name` and units `app/0`,
`app/1`, the per-unit subsets and DestinationRule subsets are named
`app-0`, `app-1` (the unit's statefulset pod name, as the tests expect),
not `service-name-0`, `service-name-1` as the claim's
`<service>-<unitOrdinal>` formula states. -/
theorem subset_names_counterexample :
    (((vsOf sampleA "None" "istio-gateway").http.drop 1).map
        fun r => r.destination.subset)
      = [some "app-0", some "app-1"]
    ∧ (drOf sampleA "None").subsets.map Subset.name = ["app-0", "app-1"]
    ∧ sampleA.route.service ++ "-" ++ unitIdx "app/0" = "service-name-0"
    ∧ ¬ ((((vsOf sampleA "None" "istio-gateway").http.drop 1).map
          fun r => r.destination.subset)
        = (sortedUnits sampleA).map
            fun u => some (sampleA.route.service ++ "-" ++ unitIdx u)) := by
  decide

/-- Claim C2 as amended: for every route with per-unit routes set, each
per-unit HTTP rule's destination subset and each DestinationRule subset
(and its statefulset pod-name label selector) is named after the unit —
the unit name with its `/` separator replaced by `-` — for every unit of
the relation, in sorted unit order. -/
theorem subset_names (e : Entry) (selfNs gw : String)
    (h : e.route.per_unit_routes = true) :
    (((vsOf e selfNs gw).http.drop 1).map fun r => r.destination.subset)
      = (sortedUnits e).map (fun u => some (unitSubset u))
    ∧ (drOf e selfNs).subsets
      = (sortedUnits e).map
          fun u => { name := unitSubset u, podName := unitSubset u } := by
  constructor
  · simp only [vsOf, h, if_true, List.drop_succ_cons, List.drop_zero,
      List.map_map]
    rfl
  · rfl

/-- Witness for C2: the amended claim at the per-unit route of the
tests. -/
theorem subset_names_witness :
    (((vsOf sampleA "ns" "istio-gateway").http.drop 1).map
        fun r => r.destination.subset)
      = (sortedUnits sampleA).map (fun u => some (unitSubset u))
    ∧ (drOf sampleA "ns").subsets
      = (sortedUnits sampleA).map
          fun u => { name := unitSubset u, podName := unitSubset u } :=
  subset_names sampleA "ns" "istio-gateway" (by decide)

/-- Claim C8: every response's url is
`http://<gatewayAddress>/<trimmedPrefix>/` with the prefix stripped of
leading and trailing slashes; `unit_urls` is present exactly when
per-unit routes are set, and then maps each unit name to
`http://<gatewayAddress>/<trimmedPrefix>-unit-<unitIndex>/`. -/
theorem response_url_shape (e : Entry) (addr : String) :
    (responseOf e addr).url
      = "http://" ++ addr ++ "/" ++ stripSlashes e.route.pfx ++ "/"
    ∧ ((responseOf e addr).unitUrls.isSome ↔ e.route.per_unit_routes = true)
    ∧ (e.route.per_unit_routes = true →
        (responseOf e addr).unitUrls
          = some (e.units.map fun u =>
              (u, "http://" ++ addr ++ "/" ++ stripSlashes e.route.pfx
                ++ "-unit-" ++ unitIdx u ++ "/"))) := by
  refine ⟨rfl, ?_, fun h => ?_⟩
  · cases hpu : e.route.per_unit_routes <;> simp [responseOf, hpu]
  · simp [responseOf, h]

/-- Witness for C8: the per-unit response of the tests. -/
theorem response_url_shape_witness :
    (responseOf sampleA "127.0.0.1").unitUrls
      = some (sampleA.units.map fun u =>
          (u, "http://" ++ "127.0.0.1" ++ "/" ++ stripSlashes sampleA.route.pfx
            ++ "-unit-" ++ unitIdx u ++ "/")) :=
  (response_url_shape sampleA "127.0.0.1").2.2 (by decide)

/-- Claim C9: `rbac_config_resource` is built from the same
group/version/kind/plural as `gateway_resource`, so both by-label
deletion passes that are meant to prune RbacConfig resources (`remove`
and `handle_ingress_auth`) list and delete Gateway resources and never a
RbacConfig resource. -/
theorem rbac_config_resource_is_gateway :
    rbac_config_resource = gateway_resource
    ∧ rbac_config_resource.kind = "Gateway"
    ∧ removeDeleteResources.map ResourceDef.kind
      = ["VirtualService", "DestinationRule", "Gateway", "EnvoyFilter",
         "Gateway"]
    ∧ ingressAuthDeleteResources.map ResourceDef.kind
      = ["EnvoyFilter", "Gateway"]
    ∧ (removeDeleteResources.all fun r => r.kind != "RbacConfig") = true
    ∧ (ingressAuthDeleteResources.all fun r => r.kind != "RbacConfig")
      = true :=
  ⟨rfl, rfl, rfl, rfl, rfl, rfl⟩

/-- Claim C10: on a relation-broken event, `handle_ingress` deletes the
broken `(relation, application)` key with no guard: it completes without
error exactly when that key is present in the filtered route set, and
raises `KeyError` whenever the broken relation contributed no entry. -/
theorem relation_broken_keyerror (rs : List Entry) (rid : Nat)
    (app gw selfNs addr : String) :
    ((∃ out, handleIngress rs (some (rid, app)) gw selfNs addr = .ok out)
      ↔ rs.any (fun e => e.relId == rid && e.appName == app) = true)
    ∧ (rs.any (fun e => e.relId == rid && e.appName == app) = false →
        handleIngress rs (some (rid, app)) gw selfNs addr
          = .error "KeyError") := by
  cases h : rs.any (fun e => e.relId == rid && e.appName == app) with
  | true =>
    have hd : delEntry rs rid app
        = .ok (rs.filter fun e => !(e.relId == rid && e.appName == app)) := by
      simp [delEntry, h]
    refine ⟨⟨fun _ => rfl,
      fun _ => ⟨compute (rs.filter fun e => !(e.relId == rid && e.appName == app))
        gw selfNs addr, ?_⟩⟩, fun hc => Bool.noConfusion hc⟩
    simp [handleIngress, hd]
  | false =>
    have hd : delEntry rs rid app = .error "KeyError" := by
      simp [delEntry, h]
    have herr : handleIngress rs (some (rid, app)) gw selfNs addr
        = .error "KeyError" := by
      simp [handleIngress, hd]
    refine ⟨⟨fun hex => ?_, fun hc => Bool.noConfusion hc⟩, fun _ => herr⟩
    obtain ⟨out, hout⟩ := hex
    rw [herr] at hout
    exact Except.noConfusion hout

/-- Witness for C10: a broken relation that contributed no route entry
makes the handler raise `KeyError`. -/
theorem relation_broken_keyerror_witness :
    handleIngress [] (some (5, "app")) "istio-gateway" "ns" "127.0.0.1"
      = .error "KeyError" :=
  (relation_broken_keyerror [] 5 "app" "istio-gateway" "ns" "127.0.0.1").2
    (by decide)

/-- Counterexample for C3: for the route of the tests (effective
namespace `ns`) and the default configuration `istio-gateway`, the
emitted VirtualService's gateways field is `["ns/istio-gateway"]` — the
namespace-qualified gateway reference the tests expect — and not the
bare one-element list `["istio-gateway"]` the claim states. -/
theorem gateways_counterexample :
    Doc.vs (vsOf sampleA "None" (firstGateway "istio-gateway"))
      ∈ (compute [sampleA] (firstGateway "istio-gateway") "None"
          "127.0.0.1").docs
    ∧ (vsOf sampleA "None" (firstGateway "istio-gateway")).gateways
      = ["ns/istio-gateway"]
    ∧ firstGateway "istio-gateway" = "istio-gateway"
    ∧ ¬ (vsOf sampleA "None" (firstGateway "istio-gateway")).gateways
      = [firstGateway "istio-gateway"] := by
  decide

/-- Claim C3 as amended: every VirtualService emitted by the ingress
reconciliation has hosts `["*"]` and gateways equal to the one-element
list whose sole element is the route's effective namespace, a `/`, and
the first entry of the comma-separated default-gateways configuration
value. -/
theorem gateways_namespaced (rs : List Entry) (cfg selfNs addr : String)
    (v : VirtualService)
    (h : Doc.vs v ∈ (compute rs (firstGateway cfg) selfNs addr).docs) :
    v.hosts = ["*"]
    ∧ ∃ e, e ∈ rs ∧ v = vsOf e selfNs (firstGateway cfg)
        ∧ v.gateways = [effNs e selfNs ++ "/" ++ firstGateway cfg] := by
  change Doc.vs v
    ∈ ((sortRoutes rs).map fun e => docsOf e selfNs (firstGateway cfg)).flatten
    at h
  rw [List.mem_flatten] at h
  obtain ⟨l, hl, hv⟩ := h
  rw [List.mem_map] at hl
  obtain ⟨e, he, rfl⟩ := hl
  have hvs : v = vsOf e selfNs (firstGateway cfg) := by
    cases hv with
    | head => rfl
    | tail _ hv =>
      cases hpu : e.route.per_unit_routes with
      | true =>
        simp [docsOf, hpu] at hv
        cases hv with
        | tail _ h2 => cases h2
      | false =>
        simp [docsOf, hpu] at hv
        cases hv
  subst hvs
  exact ⟨rfl, e, mem_sortRoutes.mp he, rfl, rfl⟩

/-- Witness for C3's amended claim: the VirtualService of the tests. -/
theorem gateways_namespaced_witness :
    (vsOf sampleA "None" (firstGateway "istio-gateway")).hosts = ["*"]
    ∧ ∃ e, e ∈ [sampleA]
        ∧ vsOf sampleA "None" (firstGateway "istio-gateway")
          = vsOf e "None" (firstGateway "istio-gateway")
        ∧ (vsOf sampleA "None" (firstGateway "istio-gateway")).gateways
          = [effNs e "None" ++ "/" ++ firstGateway "istio-gateway"] :=
  gateways_namespaced [sampleA] "istio-gateway" "None" "127.0.0.1"
    (vsOf sampleA "None" (firstGateway "istio-gateway")) (by decide)

/-- Claim C4: an application receives a response exactly when the
numeric part of its declared schema version is at least 3 — every
response in the output comes from such an entry, and every such entry's
response is in the output; entries below version 3 never contribute a
response. -/
theorem responses_iff_v3 (rs : List Entry) (gw selfNs addr : String) :
    (∀ r ∈ (compute rs gw selfNs addr).responses,
      ∃ e, e ∈ rs ∧ (∃ n, verNum e.version = some n ∧ 3 ≤ n)
        ∧ r = responseOf e addr)
    ∧ (∀ e ∈ rs, (∃ n, verNum e.version = some n ∧ 3 ≤ n) →
        responseOf e addr ∈ (compute rs gw selfNs addr).responses) := by
  have hresp : ∀ e : Entry,
      respondsB e = true ↔ ∃ n, verNum e.version = some n ∧ 3 ≤ n := by
    intro e
    cases hv : verNum e.version with
    | none => simp [respondsB, hv]
    | some n => simp [respondsB, hv]
  constructor
  · intro r hr
    change r ∈ ((sortRoutes rs).filter respondsB).map
      (fun e => responseOf e addr) at hr
    rw [List.mem_map] at hr
    obtain ⟨e, he, hre⟩ := hr
    rw [List.mem_filter] at he
    exact ⟨e, mem_sortRoutes.mp he.1, (hresp e).mp he.2, hre.symm⟩
  · intro e he hv
    have hef : e ∈ (sortRoutes rs).filter respondsB :=
      List.mem_filter.mpr ⟨mem_sortRoutes.mpr he, (hresp e).mpr hv⟩
    exact List.mem_map.mpr ⟨e, hef, rfl⟩

/-- Witness for C4: the v3 route of the tests does receive its
response. -/
theorem responses_iff_v3_witness :
    responseOf sampleA "127.0.0.1"
      ∈ (compute [sampleA, sampleC] "istio-gateway" "ns"
          "127.0.0.1").responses :=
  (responses_iff_v3 [sampleA, sampleC] "istio-gateway" "ns" "127.0.0.1").2
    sampleA (by decide) ⟨3, by decide, by decide⟩

/-- Claim C5: the reconciliation is deterministic — it depends only on
the set of route entries, not on the enumeration order of the underlying
relation-data map, so two runs over identical input (any two
enumerations of the same entries, with the distinct relation ids a
relation set has) produce identical output. -/
theorem compute_deterministic (rs₁ rs₂ : List Entry)
    (gw selfNs addr : String) (hp : rs₁.Perm rs₂)
    (hn : (rs₁.map Entry.relId).Nodup) :
    compute rs₁ gw selfNs addr = compute rs₂ gw selfNs addr := by
  unfold compute
  rw [sortRoutes_eq_of_perm hp hn]

/-- Witness for C5: the two routes of the tests, enumerated in either
order. -/
theorem compute_deterministic_witness :
    compute [sampleA, sampleB] "istio-gateway" "ns" "127.0.0.1"
      = compute [sampleB, sampleA] "istio-gateway" "ns" "127.0.0.1" :=
  compute_deterministic [sampleA, sampleB] [sampleB, sampleA]
    "istio-gateway" "ns" "127.0.0.1" (List.Perm.swap sampleB sampleA [])
    (by decide)

/-- Claim C6: requesting applications are processed in ascending
relation-id order — the documents are the per-entry documents of the
relation-id-sorted route list in that order (each entry's VirtualService
leading its contribution), and the responses follow the same order. -/
theorem docs_ordering (rs : List Entry) (gw selfNs addr : String) :
    List.Sorted entryLe (sortRoutes rs)
    ∧ (sortRoutes rs).Perm rs
    ∧ (compute rs gw selfNs addr).docs
      = ((sortRoutes rs).map fun e => docsOf e selfNs gw).flatten
    ∧ (∀ e : Entry, (docsOf e selfNs gw).head?
        = some (Doc.vs (vsOf e selfNs gw)))
    ∧ (compute rs gw selfNs addr).responses
      = ((sortRoutes rs).filter respondsB).map fun e => responseOf e addr :=
  ⟨sorted_sortRoutes rs, sortRoutes_perm rs, rfl, fun _ => rfl, rfl⟩

/-- Claim C7: on a relation-broken event exactly the broken
`(relation, application)` entry is removed before computation, and the
output is the full sorted route list minus that entry, each remaining
entry contributing exactly the documents and response it contributes
without the removal. -/
theorem relation_broken_frame (rs : List Entry) (rid : Nat)
    (app gw selfNs addr : String)
    (hn : (rs.map Entry.relId).Nodup)
    (hmem : rs.any (fun e => e.relId == rid && e.appName == app) = true) :
    handleIngress rs (some (rid, app)) gw selfNs addr
      = .ok
        { docs := (((sortRoutes rs).filter
            (fun e => !(e.relId == rid && e.appName == app))).map
              fun e => docsOf e selfNs gw).flatten
          responses := (((sortRoutes rs).filter
            (fun e => !(e.relId == rid && e.appName == app))).filter
              respondsB).map fun e => responseOf e addr }
    ∧ handleIngress rs none gw selfNs addr
      = .ok
        { docs := ((sortRoutes rs).map fun e => docsOf e selfNs gw).flatten
          responses := ((sortRoutes rs).filter respondsB).map
            fun e => responseOf e addr } := by
  have hd : delEntry rs rid app
      = .ok (rs.filter fun e => !(e.relId == rid && e.appName == app)) := by
    simp [delEntry, hmem]
  have hs := sortRoutes_filter
    (fun e => !(e.relId == rid && e.appName == app)) hn
  constructor
  · simp only [handleIngress, hd]
    unfold compute
    rw [hs]
  · rfl

/-- Witness for C7: breaking the first relation of the tests removes
exactly its documents and response. -/
theorem relation_broken_frame_witness :
    handleIngress [sampleA, sampleB] (some (0, "app")) "istio-gateway"
        "ns" "127.0.0.1"
      = .ok
        { docs := (((sortRoutes [sampleA, sampleB]).filter
            (fun e => !(e.relId == 0 && e.appName == "app"))).map
              fun e => docsOf e "ns" "istio-gateway").flatten
          responses := (((sortRoutes [sampleA, sampleB]).filter
            (fun e => !(e.relId == 0 && e.appName == "app"))).filter
              respondsB).map fun e => responseOf e "127.0.0.1" }
    ∧ handleIngress [sampleA, sampleB] none "istio-gateway" "ns" "127.0.0.1"
      = .ok
        { docs := ((sortRoutes [sampleA, sampleB]).map
            fun e => docsOf e "ns" "istio-gateway").flatten
          responses := ((sortRoutes [sampleA, sampleB]).filter
            respondsB).map fun e => responseOf e "127.0.0.1" } :=
  relation_broken_frame [sampleA, sampleB] 0 "app" "istio-gateway" "ns"
    "127.0.0.1" (by decide) (by decide)

end IstioPilot
